import Mathlib

/-!
Shallow embedding of `src/advanced_sql_generator.py`.

The repository has two independent components that the claims are about:

* `SQLTemplateEngine` — a registry of named patterns rendered with Python
  `string.Template.safe_substitute`.  We embed the substitution as a
  character-level left-to-right scan `subst`, faithful to the stdlib
  regex `\$(?:(?P<escaped>\$)|(?P<named>[_a-zA-Z][_a-zA-Z0-9]*)|` ...
  `\x7b(?P<braced>[_a-zA-Z][_a-zA-Z0-9]*)\x7d|(?P<invalid>))` with
  `safe_substitute` semantics: a named or braced placeholder whose name is
  a key of the mapping is replaced by its value, a missing one is left
  verbatim, an escaped delimiter renders as a single dollar, and an
  invalid lone dollar is kept as is.  Since a regex match can only start
  at a dollar sign, when the scan resumes right after an invalid match the
  characters up to the next possible match start are literal; the
  embedding emits them directly.

* `DynamicSQLBuilder` — a mutable accumulator of clause fragments with a
  `build` render.  We embed its state as a record and each method as a
  state-passing function.
-/

/-- Variable mappings passed to `safe_substitute` (the Python code expands a
`dict` of string keys to string-convertible values as keyword arguments). -/
abbrev Vars : Type := List (String × String)

/-- Dictionary lookup on the association list embedding of a Python dict. -/
def lookupVar : List (String × String) → String → Option String
  | [], _ => none
  | (k, val) :: rest, n => if k = n then some val else lookupVar rest n

/-- First character of a Python `string.Template` identifier: `[_a-zA-Z]`
(the default `idpattern` under the ASCII flag). -/
def isIdStart (c : Char) : Bool := c.isAlpha || c = '_'

/-- Continuation character of an identifier: `[_a-zA-Z0-9]`. -/
def isIdCont (c : Char) : Bool := isIdStart c || c.isDigit

theorem length_dropWhile_le (p : Char → Bool) (l : List Char) :
    (l.dropWhile p).length ≤ l.length :=
  (List.dropWhile_sublist p).length_le

/-- Character-level embedding of `Template.safe_substitute`: one
left-to-right pass of the stdlib pattern over the template text.  On a
dollar sign it tries, in order, the escaped form, the braced form, and the
named form; when none matches the dollar is an invalid (lone) delimiter and
is emitted unchanged, with scanning resuming at the following character.
A named or braced identifier is read by maximal munch, exactly as the
greedy regex does. -/
def subst (v : Vars) : List Char → List Char
  | [] => []
  | c :: rest =>
    if c = '$' then
      match rest with
      | [] => ['$']
      | d :: r =>
        if d = '$' then '$' :: subst v r
        else if d = '{' then
          match r with
          | [] => ['$', '{']
          | e :: r₂ =>
            if isIdStart e then
              let after := r₂.dropWhile isIdCont
              if after.head? = some '}' then
                match lookupVar v (String.mk (e :: r₂.takeWhile isIdCont)) with
                | some val => val.data ++ subst v after.tail
                | none =>
                    '$' :: '{' :: ((e :: r₂.takeWhile isIdCont) ++ '}' :: subst v after.tail)
              else '$' :: '{' :: e :: subst v r₂
            else '$' :: '{' :: subst v (e :: r₂)
        else if isIdStart d then
          match lookupVar v (String.mk (d :: r.takeWhile isIdCont)) with
          | some val => val.data ++ subst v (r.dropWhile isIdCont)
          | none => '$' :: ((d :: r.takeWhile isIdCont) ++ subst v (r.dropWhile isIdCont))
        else '$' :: d :: subst v r
    else c :: subst v rest
  termination_by l => l.length
  decreasing_by
  all_goals simp_wf
  all_goals try omega
  all_goals (have h1 := length_dropWhile_le isIdCont r₂; omega)

/-- Tokens recognised by the template scanner: a literal character, a
named placeholder, a braced placeholder, an escaped double-dollar, and an
invalid lone dollar. -/
inductive Tok where
  | lit : Char → Tok
  | named : List Char → Tok
  | braced : List Char → Tok
  | escaped : Tok
  | invalid : Tok
  deriving DecidableEq, Repr

/-- Tokenisation of a template pattern: the same scan as `subst`, but
recording what was matched instead of rendering it.  It does not depend on
any variable mapping. -/
def parseT : List Char → List Tok
  | [] => []
  | c :: rest =>
    if c = '$' then
      match rest with
      | [] => [Tok.invalid]
      | d :: r =>
        if d = '$' then Tok.escaped :: parseT r
        else if d = '{' then
          match r with
          | [] => [Tok.invalid, Tok.lit '{']
          | e :: r₂ =>
            if isIdStart e then
              let after := r₂.dropWhile isIdCont
              if after.head? = some '}' then
                Tok.braced (e :: r₂.takeWhile isIdCont) :: parseT after.tail
              else Tok.invalid :: Tok.lit '{' :: Tok.lit e :: parseT r₂
            else Tok.invalid :: Tok.lit '{' :: parseT (e :: r₂)
        else if isIdStart d then
          Tok.named (d :: r.takeWhile isIdCont) :: parseT (r.dropWhile isIdCont)
        else Tok.invalid :: Tok.lit d :: parseT r
    else Tok.lit c :: parseT rest
  termination_by l => l.length
  decreasing_by
  all_goals simp_wf
  all_goals try omega
  all_goals (have h1 := length_dropWhile_le isIdCont r₂; omega)

/-- Rendering of one token under a mapping, per `safe_substitute`: values
of present keys are inserted literally and are never re-scanned; a missing
named placeholder stays as the original dollar token; a missing braced one
stays as the original braced token; an escaped double-dollar becomes one
dollar; an invalid dollar stays. -/
def renderTok (v : Vars) : Tok → List Char
  | Tok.lit c => [c]
  | Tok.named nm =>
      match lookupVar v (String.mk nm) with
      | some val => val.data
      | none => '$' :: nm
  | Tok.braced nm =>
      match lookupVar v (String.mk nm) with
      | some val => val.data
      | none => '$' :: '{' :: (nm ++ ['}'])
  | Tok.escaped => ['$']
  | Tok.invalid => ['$']

/-- Rendering of a token list: each token rendered independently, in
order, and concatenated. -/
def renderToks (v : Vars) (ts : List Tok) : List Char :=
  (ts.map (renderTok v)).flatten

/-- Error raised by `generate_query` for an unknown template name (the
Python code raises `ValueError` naming the template; the spec calls this
condition `UnknownTemplateError`). -/
inductive GenError where
  | unknownTemplate (name : String)
  deriving DecidableEq, Repr

/-- The template engine state: the `templates` registry, a dict from name
to pattern (embedded as an association list; insertion prepends and lookup
takes the first match, which models dict overwrite). -/
structure SQLTemplateEngine where
  templates : List (String × String)
  deriving DecidableEq, Repr

/-- The registry built in `SQLTemplateEngine.__init__`: the fourteen
built-in patterns, verbatim from the source. -/
def SQLTemplateEngine.init : SQLTemplateEngine :=
  ⟨[ ("basic_select", "SELECT $columns FROM $table"),
     ("filtered_select", "SELECT $columns FROM $table WHERE $conditions"),
     ("joined_select", "SELECT $columns FROM $table $joins WHERE $conditions"),
     ("aggregated_select",
       "SELECT $group_columns, $aggregates FROM $table GROUP BY $group_columns"),
     ("paginated_select",
       "SELECT $columns FROM $table ORDER BY $order_by LIMIT $limit OFFSET $offset"),
     ("basic_insert", "INSERT INTO $table ($columns) VALUES ($values)"),
     ("bulk_insert", "INSERT INTO $table ($columns) VALUES $value_sets"),
     ("insert_select",
       "INSERT INTO $table ($columns) SELECT $select_columns FROM $source_table WHERE $conditions"),
     ("basic_update", "UPDATE $table SET $assignments WHERE $conditions"),
     ("joined_update", "UPDATE $table $joins SET $assignments WHERE $conditions"),
     ("basic_delete", "DELETE FROM $table WHERE $conditions"),
     ("joined_delete", "DELETE $table FROM $table $joins WHERE $conditions"),
     ("create_table", "CREATE TABLE $table ($column_definitions)"),
     ("create_index", "CREATE INDEX $index_name ON $table ($columns)") ]⟩

/-- `SQLTemplateEngine.generate_query`: raises for a name missing from the
registry, otherwise renders the pattern with `safe_substitute`.  The method
only reads `self.templates`, so the engine state is returned unchanged. -/
def SQLTemplateEngine.generate_query (e : SQLTemplateEngine) (template_name : String)
    (vars : Vars) : Except GenError String × SQLTemplateEngine :=
  match lookupVar e.templates template_name with
  | none => (Except.error (GenError.unknownTemplate template_name), e)
  | some pat => (Except.ok (String.mk (subst vars pat.data)), e)

/-- `SQLTemplateEngine.add_template`: stores a custom pattern under a name,
overwriting silently. -/
def SQLTemplateEngine.add_template (e : SQLTemplateEngine) (name template_string : String) :
    SQLTemplateEngine :=
  ⟨(name, template_string) :: e.templates⟩

/-- Python `sep.join(parts)`. -/
def joinSep (sep : String) : List String → String
  | [] => ""
  | [x] => x
  | x :: xs => x ++ sep ++ joinSep sep xs

/-- The `self.query_parts` dict of `DynamicSQLBuilder`: one field per key,
initialised as in `__init__` by `QueryParts.initial` below.  The `limit`
field stores the already-formatted limit string, exactly as the Python
code does. -/
structure QueryParts where
  select : List String
  from_ : String
  joins : List String
  where_ : List String
  group_by : List String
  having : List String
  order_by : List String
  limit : Option String
  deriving DecidableEq, Repr

/-- `DynamicSQLBuilder.__init__`: every sequence empty, `from` the empty
string, `limit` unset. -/
def QueryParts.initial : QueryParts :=
  ⟨[], "", [], [], [], [], [], none⟩

namespace DynamicSQLBuilder

/-- `select(*columns)`: extends the select list with the given columns. -/
def select (s : QueryParts) (columns : List String) : QueryParts :=
  { s with select := s.select ++ columns }

/-- `from_table(table, alias=None)`: sets (replaces) the FROM reference;
a truthy alias is appended after a space. -/
def from_table (s : QueryParts) (table : String) (al : Option String) : QueryParts :=
  { s with from_ :=
      match al with
      | some a => if a = "" then table else table ++ " " ++ a
      | none => table }

/-- `join(table, on_condition, join_type='INNER', alias=None)`: appends one
formatted join clause. -/
def join (s : QueryParts) (table on_condition join_type : String)
    (al : Option String) : QueryParts :=
  let table_ref :=
    match al with
    | some a => if a = "" then table else table ++ " " ++ a
    | none => table
  { s with joins := s.joins ++ [join_type ++ " JOIN " ++ table_ref ++ " ON " ++ on_condition] }

/-- `where(condition)`: appends one WHERE fragment. -/
def where_ (s : QueryParts) (condition : String) : QueryParts :=
  { s with where_ := s.where_ ++ [condition] }

/-- `group_by(*columns)`: extends the GROUP BY list. -/
def group_by (s : QueryParts) (columns : List String) : QueryParts :=
  { s with group_by := s.group_by ++ columns }

/-- `order_by(column, direction='ASC')`: appends the column paired with its
direction. -/
def order_by (s : QueryParts) (column direction : String) : QueryParts :=
  { s with order_by := s.order_by ++ [column ++ " " ++ direction] }

/-- `limit(count, offset=None)`: stores the formatted limit string,
replacing any earlier one; the OFFSET part is appended only when `offset`
is truthy (neither `None` nor `0`). -/
def limit (s : QueryParts) (count : Int) (offset : Option Int) : QueryParts :=
  let l :=
    match offset with
    | some m =>
        if m = 0 then "LIMIT " ++ toString count
        else "LIMIT " ++ toString count ++ " OFFSET " ++ toString m
    | none => "LIMIT " ++ toString count
  { s with limit := some l }

/-- `build()`: emits the clauses in fixed order and joins them with single
spaces.  The select clause falls back to `*` when the comma-join of the
select list is falsy, i.e. the empty string. -/
def build (s : QueryParts) : String :=
  let sel := joinSep ", " s.select
  let parts : List String :=
    ["SELECT " ++ (if sel = "" then "*" else sel)]
    ++ (if s.from_ = "" then [] else ["FROM " ++ s.from_])
    ++ s.joins
    ++ (if s.where_ = [] then [] else ["WHERE " ++ joinSep " AND " s.where_])
    ++ (if s.group_by = [] then [] else ["GROUP BY " ++ joinSep ", " s.group_by])
    ++ (if s.having = [] then [] else ["HAVING " ++ joinSep " AND " s.having])
    ++ (if s.order_by = [] then [] else ["ORDER BY " ++ joinSep ", " s.order_by])
    ++ (match s.limit with
        | some l => if l = "" then [] else [l]
        | none => [])
  joinSep " " parts

/-- `reset()`: reruns `__init__`, discarding all prior state. -/
def reset (_s : QueryParts) : QueryParts :=
  QueryParts.initial

end DynamicSQLBuilder

/-- One call to a public mutating method of `DynamicSQLBuilder`, with its
arguments: these constructors enumerate exactly the methods the class
defines (besides the read-only `build`). -/
inductive BuilderOp where
  | select (columns : List String)
  | from_table (table : String) (al : Option String)
  | join (table on_condition join_type : String) (al : Option String)
  | where_ (condition : String)
  | group_by (columns : List String)
  | order_by (column direction : String)
  | limit (count : Int) (offset : Option Int)
  | reset

/-- Dispatch of one builder method call to its embedding. -/
def applyOp (s : QueryParts) : BuilderOp → QueryParts
  | BuilderOp.select columns => DynamicSQLBuilder.select s columns
  | BuilderOp.from_table table al => DynamicSQLBuilder.from_table s table al
  | BuilderOp.join table oc jt al => DynamicSQLBuilder.join s table oc jt al
  | BuilderOp.where_ c => DynamicSQLBuilder.where_ s c
  | BuilderOp.group_by columns => DynamicSQLBuilder.group_by s columns
  | BuilderOp.order_by c d => DynamicSQLBuilder.order_by s c d
  | BuilderOp.limit n m => DynamicSQLBuilder.limit s n m
  | BuilderOp.reset => DynamicSQLBuilder.reset s

/-- A chain of builder method calls applied in order. -/
def applyOps (s : QueryParts) (ops : List BuilderOp) : QueryParts :=
  ops.foldl applyOp s

example : DynamicSQLBuilder.build QueryParts.initial = "SELECT *" := rfl

example :
    DynamicSQLBuilder.build
      (DynamicSQLBuilder.limit
        (DynamicSQLBuilder.order_by
          (DynamicSQLBuilder.where_
            (DynamicSQLBuilder.from_table
              (DynamicSQLBuilder.select QueryParts.initial ["id", "name"])
              "users" none)
            "active = 1")
          "id" "DESC")
        5 none)
    = "SELECT id, name FROM users WHERE active = 1 ORDER BY id DESC LIMIT 5" := rfl

theorem renderToks_nil (v : Vars) : renderToks v [] = [] := rfl

theorem renderToks_cons (v : Vars) (t : Tok) (ts : List Tok) :
    renderToks v (t :: ts) = renderTok v t ++ renderToks v ts := by
  simp [renderToks]

theorem renderToks_append (v : Vars) (ts₁ ts₂ : List Tok) :
    renderToks v (ts₁ ++ ts₂) = renderToks v ts₁ ++ renderToks v ts₂ := by
  simp [renderToks]

/-- The substitution pass factors through the tokenisation: the output is
the concatenation, in pattern order, of each token rendered on its own.
Tokenisation does not look at the mapping, and a present value is spliced
in verbatim by `renderTok`, so inserted text is never re-scanned. -/
theorem subst_eq_renderToks (v : Vars) (l : List Char) :
    subst v l = renderToks v (parseT l) := by
  induction l using subst.induct v with
  | case1 => simp [subst, parseT, renderToks]
  | case2 => simp [subst, parseT, renderToks, renderTok]
  | case3 r ih =>
      rw [subst.eq_def, parseT.eq_def]
      simp [renderToks_cons, renderTok, ih]
  | case4 h => simp [subst, parseT, renderToks_cons, renderToks, renderTok]
  | case5 e r₂ he after hcl val hlk hne ih =>
      rw [subst.eq_def, parseT.eq_def]
      simp [renderToks_cons, renderTok, he, hcl, hlk, ih]
  | case6 e r₂ he after hcl hlk hne ih =>
      rw [subst.eq_def, parseT.eq_def]
      simp [renderToks_cons, renderTok, he, hcl, hlk, ih]
  | case7 e r₂ he after hcl hne ih =>
      rw [subst.eq_def, parseT.eq_def]
      simp [renderToks_cons, renderTok, he, hcl, ih]
  | case8 e r₂ he hne ih =>
      rw [subst.eq_def, parseT.eq_def]
      simp [renderToks_cons, renderTok, he, ih]
  | case9 e r₂ hd1 hd2 he val hlk ih =>
      rw [subst.eq_def, parseT.eq_def]
      simp [renderToks_cons, renderTok, hd1, hd2, he, hlk, ih]
  | case10 e r₂ hd1 hd2 he hlk ih =>
      rw [subst.eq_def, parseT.eq_def]
      simp [renderToks_cons, renderTok, hd1, hd2, he, hlk, ih]
  | case11 e r₂ hd1 hd2 he ih =>
      rw [subst.eq_def, parseT.eq_def]
      simp [renderToks_cons, renderTok, hd1, hd2, he, ih]
  | case12 e r₂ he ih =>
      rw [subst.eq_def, parseT.eq_def]
      simp [renderToks_cons, renderTok, he, ih]

theorem parseT_nodollar_append (pre r : List Char) (h : ∀ c ∈ pre, c ≠ '$') :
    parseT (pre ++ r) = pre.map Tok.lit ++ parseT r := by
  induction pre with
  | nil => simp
  | cons c pre' ih =>
      have hc : c ≠ '$' := h c (by simp)
      rw [List.cons_append, parseT.eq_def]
      simp only [hc, if_false]
      rw [ih (fun d hd => h d (by simp [hd]))]
      simp

theorem parseT_escaped (r : List Char) :
    parseT ('$' :: '$' :: r) = Tok.escaped :: parseT r := by
  rw [parseT.eq_def]
  simp

theorem renderToks_map_lit (v : Vars) (l : List Char) :
    renderToks v (l.map Tok.lit) = l := by
  induction l with
  | nil => rfl
  | cons c cs ih => simp [renderToks_cons, renderTok, ih]

theorem joinSep_cons (sep x : String) (xs : List String) (h : xs ≠ []) :
    joinSep sep (x :: xs) = x ++ sep ++ joinSep sep xs := by
  cases xs with
  | nil => exact absurd rfl h
  | cons y ys => rfl

theorem joinSep_head_pre (sep x : String) (xs : List String) :
    x.data <+: (joinSep sep (x :: xs)).data := by
  cases xs with
  | nil => exact List.prefix_refl _
  | cons y ys =>
      exact ⟨(sep ++ joinSep sep (y :: ys)).data, by simp [joinSep, String.data_append]⟩

theorem joinSep_mem_inf (sep x : String) (l : List String) (h : x ∈ l) :
    x.data <:+: (joinSep sep l).data := by
  induction l with
  | nil => cases h
  | cons y ys ih =>
      rcases List.mem_cons.mp h with rfl | hmem
      · exact (joinSep_head_pre sep x ys).isInfix
      · have hne : ys ≠ [] := by intro hy; rw [hy] at hmem; cases hmem
        obtain ⟨s, t, hst⟩ := ih hmem
        refine ⟨(y ++ sep).data ++ s, t, ?_⟩
        rw [joinSep_cons sep y ys hne]
        simp [String.data_append, ← hst]

theorem joinSep_suf_ext (sep x : String) (l₁ l₂ : List String) (h₂ : l₂ ≠ [])
    (h : x.data <:+ (joinSep sep l₂).data) :
    x.data <:+ (joinSep sep (l₁ ++ l₂)).data := by
  induction l₁ with
  | nil => simpa using h
  | cons y l₁ ih =>
      have hne : l₁ ++ l₂ ≠ [] := by
        intro hc
        exact h₂ (List.append_eq_nil.mp hc).2
      obtain ⟨s, hs⟩ := ih
      rw [List.cons_append, joinSep_cons sep y (l₁ ++ l₂) hne]
      exact ⟨(y ++ sep).data ++ s, by simp [String.data_append, ← hs]⟩

theorem joinSep_last_suf (sep : String) (l : List String) (x : String) :
    x.data <:+ (joinSep sep (l ++ [x])).data := by
  have := joinSep_suf_ext sep x l [x] (by simp) (List.suffix_refl _)
  simpa using this

theorem joinSep_pre_of_append (sep : String) (l₁ l₂ : List String) (h : l₁ ≠ []) :
    (joinSep sep l₁).data <+: (joinSep sep (l₁ ++ l₂)).data := by
  induction l₁ with
  | nil => exact absurd rfl h
  | cons x l₁ ih =>
      cases hl : l₁ with
      | nil =>
          subst hl
          cases l₂ with
          | nil => simp
          | cons z zs =>
              exact ⟨(sep ++ joinSep sep (z :: zs)).data, by
                simp [joinSep, String.data_append]⟩
      | cons y ys =>
          have h₁ : l₁ ≠ [] := by rw [hl]; simp
          obtain ⟨t, ht⟩ := ih h₁
          rw [hl] at ht
          simp only [List.cons_append] at ht ⊢
          rw [joinSep_cons sep x (y :: ys) (by simp),
              joinSep_cons sep x (y :: (ys ++ l₂)) (by simp)]
          have ht' : (joinSep sep (y :: ys)).data ++ t
              = (joinSep sep (y :: (ys ++ l₂))).data := by
            simpa using ht
          exact ⟨t, by simp [String.data_append, List.append_assoc, ht']⟩

theorem build_limit_suf (s : QueryParts) (lstr : String) (h : s.limit = some lstr)
    (hne : lstr ≠ "") : lstr.data <:+ (DynamicSQLBuilder.build s).data := by
  simp only [DynamicSQLBuilder.build, h]
  rw [if_neg hne]
  exact joinSep_last_suf " " _ lstr

theorem build_select_pre (s : QueryParts) :
    ("SELECT " ++ (if joinSep ", " s.select = "" then "*" else joinSep ", " s.select)).data
      <+: (DynamicSQLBuilder.build s).data := by
  simp only [DynamicSQLBuilder.build, List.append_assoc, List.singleton_append]
  exact joinSep_head_pre " " _ _

/-- C1: rendering an unregistered template name fails with the
unknown-template error and returns no output string; the registry comes
back unchanged (and the call reads neither the mapping nor the registry
destructively — `generate_query` is pure in the embedding). -/
theorem C1_unknown_template_fails (e : SQLTemplateEngine) (name : String) (v : Vars)
    (h : lookupVar e.templates name = none) :
    SQLTemplateEngine.generate_query e name v
      = (Except.error (GenError.unknownTemplate name), e) := by
  simp [SQLTemplateEngine.generate_query, h]

theorem C1_unknown_template_fails_witness :
    lookupVar SQLTemplateEngine.init.templates "missing_template" = none
    ∧ SQLTemplateEngine.generate_query SQLTemplateEngine.init "missing_template"
        [("table", "users")]
      = (Except.error (GenError.unknownTemplate "missing_template"), SQLTemplateEngine.init) :=
  ⟨by decide,
   C1_unknown_template_fails SQLTemplateEngine.init "missing_template"
     [("table", "users")] (by decide)⟩

/-- C3: rendering a registered template never fails: the result is the
token-wise rendering of the pattern, token for token in pattern order, and
a named placeholder token whose name is absent from the mapping renders to
exactly the original dollar token, unmodified, in its original slot. -/
theorem C3_missing_placeholder_kept (name pat : String) (v : Vars)
    (h : lookupVar SQLTemplateEngine.init.templates name = some pat) :
    SQLTemplateEngine.generate_query SQLTemplateEngine.init name v
      = (Except.ok (String.mk (renderToks v (parseT pat.data))), SQLTemplateEngine.init)
    ∧ ∀ nm : List Char, lookupVar v (String.mk nm) = none →
        renderTok v (Tok.named nm) = '$' :: nm := by
  refine ⟨?_, ?_⟩
  · simp [SQLTemplateEngine.generate_query, h, subst_eq_renderToks]
  · intro nm hnm
    simp [renderTok, hnm]

theorem C3_missing_placeholder_kept_witness :
    lookupVar SQLTemplateEngine.init.templates "basic_select"
      = some "SELECT $columns FROM $table"
    ∧ lookupVar [("table", "users")] (String.mk "columns".data) = none
    ∧ SQLTemplateEngine.generate_query SQLTemplateEngine.init "basic_select"
        [("table", "users")]
      = (Except.ok (String.mk (renderToks [("table", "users")]
          (parseT "SELECT $columns FROM $table".data))), SQLTemplateEngine.init)
    ∧ renderTok [("table", "users")] (Tok.named "columns".data) = '$' :: "columns".data := by
  refine ⟨by decide, by decide, ?_, ?_⟩
  · exact (C3_missing_placeholder_kept "basic_select" "SELECT $columns FROM $table"
      [("table", "users")] (by decide)).1
  · exact (C3_missing_placeholder_kept "basic_select" "SELECT $columns FROM $table"
      [("table", "users")] (by decide)).2 "columns".data (by decide)

/-- C7: substitution is a single left-to-right pass with literal insertion:
the output factors through the mapping-independent tokenisation, a present
value is spliced in verbatim by its token (so inserted text is never
re-scanned and never escaped), and concretely a value bound to `x` appears
in the output of the two-character pattern as-is, whatever it contains. -/
theorem C7_single_pass_literal (v : Vars) (pat : List Char) :
    subst v pat = renderToks v (parseT pat)
    ∧ (∀ (nm : List Char) (val : String), lookupVar v (String.mk nm) = some val →
        renderTok v (Tok.named nm) = val.data)
    ∧ (∀ value : String, lookupVar v (String.mk ['x']) = some value →
        subst v ['$', 'x'] = value.data) := by
  refine ⟨subst_eq_renderToks v pat, ?_, ?_⟩
  · intro nm val hl
    simp [renderTok, hl]
  · intro value hl
    rw [subst.eq_def]
    simp [isIdStart, hl, subst]

theorem C7_single_pass_literal_witness :
    lookupVar [("x", "$name FROM ${city}")] (String.mk ['x']) = some "$name FROM ${city}"
    ∧ subst [("x", "$name FROM ${city}")] ['$', 'x'] = "$name FROM ${city}".data :=
  ⟨by decide,
   (C7_single_pass_literal [("x", "$name FROM ${city}")] []).2.2
     "$name FROM ${city}" (by decide)⟩

/-- C9: a double dollar in a pattern renders as one literal dollar and is
never treated as a placeholder, whatever the mapping holds: after any
dollar-free prefix the pass emits the prefix, a single dollar, and then the
rendering of the remainder; the tokeniser maps the pair to the escape
token, whose rendering ignores the mapping. -/
theorem C9_escaped_dollar (v : Vars) (pre r : List Char) (h : ∀ c ∈ pre, c ≠ '$') :
    subst v (pre ++ '$' :: '$' :: r) = pre ++ '$' :: subst v r
    ∧ parseT (pre ++ '$' :: '$' :: r) = pre.map Tok.lit ++ Tok.escaped :: parseT r
    ∧ renderTok v Tok.escaped = ['$'] := by
  have hp : parseT (pre ++ '$' :: '$' :: r) = pre.map Tok.lit ++ Tok.escaped :: parseT r := by
    rw [parseT_nodollar_append pre _ h, parseT_escaped]
  refine ⟨?_, hp, rfl⟩
  rw [subst_eq_renderToks, hp, renderToks_append, renderToks_map_lit, renderToks_cons]
  simp [renderTok, subst_eq_renderToks]

theorem C9_escaped_dollar_witness :
    (∀ c ∈ "total ".data, c ≠ '$')
    ∧ subst [("x", "1")] ("total ".data ++ '$' :: '$' :: "x".data)
        = "total ".data ++ '$' :: subst [("x", "1")] "x".data
    ∧ parseT ("total ".data ++ '$' :: '$' :: "x".data)
        = "total ".data.map Tok.lit ++ Tok.escaped :: parseT "x".data
    ∧ renderTok [("x", "1")] Tok.escaped = ['$'] := by
  refine ⟨by decide, ?_⟩
  exact C9_escaped_dollar [("x", "1")] "total ".data "x".data (by decide)

theorem build_where_inf (s : QueryParts) (h : s.where_ ≠ []) :
    ("WHERE " ++ joinSep " AND " s.where_).data <:+: (DynamicSQLBuilder.build s).data := by
  simp only [DynamicSQLBuilder.build]
  apply joinSep_mem_inf
  simp [h]

/-- C4: three successive where calls on a builder with no prior WHERE
fragment append in call order, and the built query contains the substring
WHERE c1 AND c2 AND c3. -/
theorem C4_where_order (s : QueryParts) (c1 c2 c3 : String) (h : s.where_ = []) :
    ("WHERE " ++ c1 ++ " AND " ++ c2 ++ " AND " ++ c3).data <:+:
      (DynamicSQLBuilder.build
        (DynamicSQLBuilder.where_
          (DynamicSQLBuilder.where_ (DynamicSQLBuilder.where_ s c1) c2) c3)).data := by
  have hw : (DynamicSQLBuilder.where_
      (DynamicSQLBuilder.where_ (DynamicSQLBuilder.where_ s c1) c2) c3).where_
      = [c1, c2, c3] := by
    simp [DynamicSQLBuilder.where_, h]
  have hinf := build_where_inf
    (DynamicSQLBuilder.where_
      (DynamicSQLBuilder.where_ (DynamicSQLBuilder.where_ s c1) c2) c3)
    (by rw [hw]; simp)
  rw [hw] at hinf
  have heq : ("WHERE " ++ c1 ++ " AND " ++ c2 ++ " AND " ++ c3).data
      = ("WHERE " ++ joinSep " AND " [c1, c2, c3]).data := by
    simp [joinSep, String.data_append, List.append_assoc]
  rw [heq]
  exact hinf

theorem C4_where_order_witness :
    QueryParts.initial.where_ = ([] : List String)
    ∧ ("WHERE " ++ "a = 1" ++ " AND " ++ "b = 2" ++ " AND " ++ "c = 3").data <:+:
      (DynamicSQLBuilder.build
        (DynamicSQLBuilder.where_
          (DynamicSQLBuilder.where_
            (DynamicSQLBuilder.where_ QueryParts.initial "a = 1") "b = 2") "c = 3")).data :=
  ⟨rfl, C4_where_order QueryParts.initial "a = 1" "b = 2" "c = 3" rfl⟩

/-- C5 counterexample: with the offset explicitly given as 0, the built
query ends in LIMIT 5 with no OFFSET clause, so render does not emit
LIMIT n OFFSET m for every explicitly given offset. -/
theorem C5_offset_zero_cex :
    DynamicSQLBuilder.build (DynamicSQLBuilder.limit QueryParts.initial 5 (some 0))
      = "SELECT * LIMIT 5"
    ∧ DynamicSQLBuilder.build (DynamicSQLBuilder.limit QueryParts.initial 5 (some 0))
      ≠ "SELECT * LIMIT 5 OFFSET 0" := by
  exact ⟨rfl, by decide⟩

/-- C5 amended: limit stores LIMIT n OFFSET m only for a truthy (nonzero)
explicit offset; an offset of 0, like an absent one, yields LIMIT n with no
OFFSET; a later limit call replaces the earlier setting; and the stored
limit string is emitted at the end of the built query. -/
theorem C5_limit_truthy_offset (s : QueryParts) (n m n' : Int) (o' : Option Int)
    (h : m ≠ 0) :
    (DynamicSQLBuilder.limit s n (some m)).limit
      = some ("LIMIT " ++ toString n ++ " OFFSET " ++ toString m)
    ∧ (DynamicSQLBuilder.limit s n (some 0)).limit = some ("LIMIT " ++ toString n)
    ∧ (DynamicSQLBuilder.limit s n none).limit = some ("LIMIT " ++ toString n)
    ∧ DynamicSQLBuilder.limit (DynamicSQLBuilder.limit s n' o') n (some m)
      = DynamicSQLBuilder.limit s n (some m)
    ∧ ("LIMIT " ++ toString n ++ " OFFSET " ++ toString m).data
      <:+ (DynamicSQLBuilder.build (DynamicSQLBuilder.limit s n (some m))).data
    ∧ ("LIMIT " ++ toString n).data
      <:+ (DynamicSQLBuilder.build (DynamicSQLBuilder.limit s n none)).data := by
  have hdata : ∀ t : String, ("LIMIT " ++ t).data ≠ [] := by
    intro t hc
    rw [String.data_append] at hc
    exact absurd (List.append_eq_nil.mp hc).1 (by decide)
  refine ⟨by simp [DynamicSQLBuilder.limit, h], by simp [DynamicSQLBuilder.limit],
    by simp [DynamicSQLBuilder.limit], by simp [DynamicSQLBuilder.limit], ?_, ?_⟩
  · apply build_limit_suf _ _ (by simp [DynamicSQLBuilder.limit, h])
    intro hc
    apply hdata (toString n ++ " OFFSET " ++ toString m)
    have hd := congrArg String.data hc
    simp [String.data_append, List.append_assoc] at hd
  · apply build_limit_suf _ _ (by simp [DynamicSQLBuilder.limit])
    intro hc
    apply hdata (toString n)
    have hd := congrArg String.data hc
    simp [String.data_append] at hd

theorem C5_limit_truthy_offset_witness :
    (7 : Int) ≠ 0
    ∧ (DynamicSQLBuilder.limit QueryParts.initial 10 (some 7)).limit
        = some ("LIMIT " ++ toString (10 : Int) ++ " OFFSET " ++ toString (7 : Int))
    ∧ (DynamicSQLBuilder.limit QueryParts.initial 10 (some 0)).limit
        = some ("LIMIT " ++ toString (10 : Int))
    ∧ (DynamicSQLBuilder.limit QueryParts.initial 10 none).limit
        = some ("LIMIT " ++ toString (10 : Int))
    ∧ DynamicSQLBuilder.limit
        (DynamicSQLBuilder.limit QueryParts.initial 3 (some 4)) 10 (some 7)
        = DynamicSQLBuilder.limit QueryParts.initial 10 (some 7)
    ∧ ("LIMIT " ++ toString (10 : Int) ++ " OFFSET " ++ toString (7 : Int)).data
        <:+ (DynamicSQLBuilder.build
              (DynamicSQLBuilder.limit QueryParts.initial 10 (some 7))).data
    ∧ ("LIMIT " ++ toString (10 : Int)).data
        <:+ (DynamicSQLBuilder.build
              (DynamicSQLBuilder.limit QueryParts.initial 10 none)).data :=
  ⟨by decide, C5_limit_truthy_offset QueryParts.initial 10 7 3 (some 4) (by decide)⟩

/-- C6 counterexample: a single empty-string select expression makes the
comma-join falsy, so build substitutes the star and does not emit the
accumulated expression verbatim. -/
theorem C6_empty_select_cex :
    DynamicSQLBuilder.build (DynamicSQLBuilder.select QueryParts.initial [""])
      = "SELECT *"
    ∧ DynamicSQLBuilder.build (DynamicSQLBuilder.select QueryParts.initial [""])
      ≠ "SELECT " := by
  exact ⟨rfl, by decide⟩

/-- C6 amended: select appends its arguments verbatim, unvalidated and
unmodified; build emits the comma-join of the accumulated expressions in
the SELECT clause whenever that join is non-empty, and substitutes the
star exactly when the join is the empty string (no expressions, or a
single empty expression). -/
theorem C6_select_verbatim (s : QueryParts) (cols : List String)
    (h : joinSep ", " s.select ≠ "") :
    (DynamicSQLBuilder.select s cols).select = s.select ++ cols
    ∧ ("SELECT " ++ joinSep ", " s.select).data <+: (DynamicSQLBuilder.build s).data
    ∧ (∀ s' : QueryParts, joinSep ", " s'.select = "" →
        ("SELECT *").data <+: (DynamicSQLBuilder.build s').data) := by
  refine ⟨by simp [DynamicSQLBuilder.select], ?_, ?_⟩
  · have hp := build_select_pre s
    rw [if_neg h] at hp
    exact hp
  · intro s' h'
    have hp := build_select_pre s'
    rw [if_pos h'] at hp
    exact hp

theorem C6_select_verbatim_witness :
    joinSep ", " (DynamicSQLBuilder.select QueryParts.initial ["id", ""]).select ≠ ""
    ∧ (DynamicSQLBuilder.select (DynamicSQLBuilder.select QueryParts.initial ["id", ""])
        ["name"]).select
      = (DynamicSQLBuilder.select QueryParts.initial ["id", ""]).select ++ ["name"]
    ∧ ("SELECT "
        ++ joinSep ", " (DynamicSQLBuilder.select QueryParts.initial ["id", ""]).select).data
      <+: (DynamicSQLBuilder.build (DynamicSQLBuilder.select QueryParts.initial ["id", ""])).data
    ∧ (∀ s' : QueryParts, joinSep ", " s'.select = "" →
        ("SELECT *").data <+: (DynamicSQLBuilder.build s').data) :=
  ⟨by decide,
   C6_select_verbatim (DynamicSQLBuilder.select QueryParts.initial ["id", ""])
     ["name"] (by decide)⟩

/-- C8: reset restores the exact initial state, so a subsequent build
yields SELECT *, identical to building a freshly created builder,
whatever the prior state was. -/
theorem C8_reset_restores_initial (s : QueryParts) :
    DynamicSQLBuilder.reset s = QueryParts.initial
    ∧ DynamicSQLBuilder.build (DynamicSQLBuilder.reset s) = "SELECT *"
    ∧ DynamicSQLBuilder.build QueryParts.initial = "SELECT *" :=
  ⟨rfl, rfl, rfl⟩

/-- C10: with the source table never set, build omits the FROM clause yet
still emits every accumulated join clause, in append order, immediately
after the SELECT clause; in particular a fresh builder with one default
join builds SELECT * INNER JOIN t ON c. -/
theorem C10_joins_without_from (s : QueryParts) (hf : s.from_ = "") (hj : s.joins ≠ []) :
    ("SELECT " ++ (if joinSep ", " s.select = "" then "*" else joinSep ", " s.select)
      ++ " " ++ joinSep " " s.joins).data <+: (DynamicSQLBuilder.build s).data
    ∧ ∀ t oc : String,
        DynamicSQLBuilder.build (DynamicSQLBuilder.join QueryParts.initial t oc "INNER" none)
          = "SELECT * INNER JOIN " ++ t ++ " ON " ++ oc := by
  constructor
  · have hpre := joinSep_pre_of_append " "
      (("SELECT " ++ (if joinSep ", " s.select = "" then "*" else joinSep ", " s.select))
        :: s.joins)
      ((if s.where_ = [] then [] else ["WHERE " ++ joinSep " AND " s.where_])
        ++ (if s.group_by = [] then [] else ["GROUP BY " ++ joinSep ", " s.group_by])
        ++ (if s.having = [] then [] else ["HAVING " ++ joinSep " AND " s.having])
        ++ (if s.order_by = [] then [] else ["ORDER BY " ++ joinSep ", " s.order_by])
        ++ (match s.limit with
            | some l => if l = "" then [] else [l]
            | none => []))
      (by simp)
    rw [joinSep_cons _ _ _ hj] at hpre
    have hb : DynamicSQLBuilder.build s
        = joinSep " "
          ((("SELECT " ++ (if joinSep ", " s.select = "" then "*" else joinSep ", " s.select))
            :: s.joins)
          ++ ((if s.where_ = [] then [] else ["WHERE " ++ joinSep " AND " s.where_])
            ++ (if s.group_by = [] then [] else ["GROUP BY " ++ joinSep ", " s.group_by])
            ++ (if s.having = [] then [] else ["HAVING " ++ joinSep " AND " s.having])
            ++ (if s.order_by = [] then [] else ["ORDER BY " ++ joinSep ", " s.order_by])
            ++ (match s.limit with
                | some l => if l = "" then [] else [l]
                | none => []))) := by
      simp [DynamicSQLBuilder.build, hf, List.append_assoc]
    rw [hb]
    exact hpre
  · intro t oc
    apply String.ext
    simp [DynamicSQLBuilder.build, DynamicSQLBuilder.join, QueryParts.initial,
      joinSep, String.data_append, List.append_assoc]

theorem C10_joins_without_from_witness :
    (DynamicSQLBuilder.join QueryParts.initial "orders" "users.id = orders.user_id"
      "LEFT" none).from_ = ""
    ∧ (DynamicSQLBuilder.join QueryParts.initial "orders" "users.id = orders.user_id"
      "LEFT" none).joins ≠ []
    ∧ ("SELECT "
        ++ (if joinSep ", " (DynamicSQLBuilder.join QueryParts.initial "orders"
              "users.id = orders.user_id" "LEFT" none).select = "" then "*"
            else joinSep ", " (DynamicSQLBuilder.join QueryParts.initial "orders"
              "users.id = orders.user_id" "LEFT" none).select)
        ++ " " ++ joinSep " " (DynamicSQLBuilder.join QueryParts.initial "orders"
              "users.id = orders.user_id" "LEFT" none).joins).data
      <+: (DynamicSQLBuilder.build (DynamicSQLBuilder.join QueryParts.initial "orders"
              "users.id = orders.user_id" "LEFT" none)).data
    ∧ ∀ t oc : String,
        DynamicSQLBuilder.build (DynamicSQLBuilder.join QueryParts.initial t oc "INNER" none)
          = "SELECT * INNER JOIN " ++ t ++ " ON " ++ oc :=
  ⟨rfl, by decide,
   (C10_joins_without_from (DynamicSQLBuilder.join QueryParts.initial "orders"
      "users.id = orders.user_id" "LEFT" none) rfl (by decide)).1,
   (C10_joins_without_from (DynamicSQLBuilder.join QueryParts.initial "orders"
      "users.id = orders.user_id" "LEFT" none) rfl (by decide)).2⟩

theorem applyOp_having_empty (s : QueryParts) (op : BuilderOp) (h : s.having = []) :
    (applyOp s op).having = [] := by
  cases op <;>
    simp [applyOp, DynamicSQLBuilder.select, DynamicSQLBuilder.from_table,
      DynamicSQLBuilder.join, DynamicSQLBuilder.where_, DynamicSQLBuilder.group_by,
      DynamicSQLBuilder.order_by, DynamicSQLBuilder.limit, DynamicSQLBuilder.reset,
      QueryParts.initial, h]

theorem applyOps_having_empty (ops : List BuilderOp) :
    ∀ s : QueryParts, s.having = [] → (applyOps s ops).having = [] := by
  induction ops with
  | nil => intro s h; exact h
  | cons op ops ih =>
      intro s h
      exact ih (applyOp s op) (applyOp_having_empty s op h)

/-- C2: the render side of HAVING exists — build emits the fragments
conjoined with AND, in order, whenever the having sequence is non-empty,
and omits the clause when it is empty — but no public method of the class
appends to that sequence: along every chain of method calls from a fresh
builder the having sequence stays empty, so the claimed having operation
is missing from the code. -/
theorem C2_having_unreachable (ops : List BuilderOp) (s : QueryParts)
    (h : s.having ≠ []) :
    (applyOps QueryParts.initial ops).having = []
    ∧ ("HAVING " ++ joinSep " AND " s.having).data <:+: (DynamicSQLBuilder.build s).data := by
  constructor
  · exact applyOps_having_empty ops QueryParts.initial rfl
  · simp only [DynamicSQLBuilder.build]
    apply joinSep_mem_inf
    simp [h]

theorem C2_having_unreachable_witness :
    ({ QueryParts.initial with having := ["COUNT(id) > 10"] } : QueryParts).having ≠ []
    ∧ (applyOps QueryParts.initial
        [BuilderOp.select ["name"], BuilderOp.from_table "users" none,
         BuilderOp.group_by ["name"]]).having = []
    ∧ ("HAVING "
        ++ joinSep " AND "
          ({ QueryParts.initial with having := ["COUNT(id) > 10"] } : QueryParts).having).data
      <:+: (DynamicSQLBuilder.build
        ({ QueryParts.initial with having := ["COUNT(id) > 10"] } : QueryParts)).data := by
  refine ⟨by decide, ?_⟩
  exact C2_having_unreachable
    [BuilderOp.select ["name"], BuilderOp.from_table "users" none,
     BuilderOp.group_by ["name"]]
    { QueryParts.initial with having := ["COUNT(id) > 10"] } (by decide)
